import Mathlib

/-!
Shallow embedding of the emulated Wiimote device core from
`Source/Core/Core/HW/WiimoteEmu/WiimoteEmu.cpp` (Dolphin / PrimeHack fork).

The embedding models the reporting state machine, the per-tick orchestration
of `Wiimote::Update`, the report builder of `Wiimote::SendDataReport`, the
transport entry points `ControlChannel` / `InterruptChannel`, `Reset`, the
orientation correction `GetOrientation`, and the flag computations
`IsSideways` / `IsUpright`.

Helpers that the excerpt calls but whose bodies live in repository files not
present under `src/` (`HandleExtensionSwap`, `HandleRequestStatus`,
`ProcessReadDataRequest`, the `DataReportBuilder` format tables, and the
constants from the headers) are modelled from the specification; each such
definition is marked `Modelled from the spec:` in its doc comment.

External collaborators that the specification declares out of scope
(movie/replay playback, net-play synchronization, the input-binding layer,
EEPROM file I/O) are elided from the model.
-/

namespace WiimoteEmu

/-- Input report identifiers, mirroring `WiimoteCommon::InputReportID` as used
by `WiimoteEmu.cpp` (`ReportDisabled`, `ReportCore`, `ReportInterleave1`,
`ReportInterleave2` appear literally in the source; the remaining data-report
formats are the mode-dependent variants of spec section 4.3). -/
inductive InputReportID where
  | reportDisabled
  | reportCore
  | reportCoreAccel
  | reportCoreExt8
  | reportCoreAccelIR12
  | reportCoreExt19
  | reportCoreAccelExt16
  | reportCoreIR10Ext9
  | reportCoreAccelIR10Ext6
  | reportExt21
  | reportInterleave1
  | reportInterleave2
  deriving DecidableEq, Repr

/-- Extension identifiers, mirroring `ExtensionNumber` (the attachment list
built in the `Wiimote` constructor, lines 231-239 of the source). -/
inductive ExtensionNumber where
  | none
  | nunchuk
  | classic
  | guitar
  | drums
  | turntable
  | udrawTablet
  | drawsomeTablet
  | tatacon
  deriving DecidableEq, Repr

/-- Device state: the fields of the `Wiimote` class that the verified claims
observe. `port_connected` models `m_extension_port.IsDeviceConnected()`;
`status_extension` models `m_status.extension` (the last-announced extension
status); `attachment_setting` / `motion_plus_setting` model the GUI-selected
attachment and the "Attach MotionPlus" setting consumed by
`HandleExtensionSwap`; `read_request_size` models the remaining byte count of
`m_read_request` (0 = no pending request); the four `mod_*` fields model
`m_hotkeys->getSettingsModifier()[0..3]` in the order the hotkey inputs are
registered (Sideways Toggle, Upright Toggle, Sideways Hold, Upright Hold). -/
structure WiimoteState where
  reporting_channel : Nat
  reporting_mode : InputReportID
  reporting_continuous : Bool
  speaker_mute : Bool
  status_extension : Bool
  active_extension : ExtensionNumber
  is_motion_plus_attached : Bool
  attachment_setting : ExtensionNumber
  motion_plus_setting : Bool
  port_connected : Bool
  read_request_size : Nat
  sideways_setting : Bool
  upright_setting : Bool
  mod_sideways_toggle : Bool
  mod_upright_toggle : Bool
  mod_sideways_hold : Bool
  mod_upright_hold : Bool
  deriving DecidableEq, Repr

/-- The internal I²C bus, as observed through `m_i2c_bus.BusRead`: a function
from (slave address, register offset, requested byte count) to the bytes the
addressed sub-device actually delivers. A read can never deliver more bytes
than requested; the model enforces this by truncation at the call sites. -/
abbrev Bus := Nat → Nat → Nat → List Nat

/-- Reports emitted toward the host on the interrupt channel. A `data` report
records the reporting mode it was built for, the accelerometer calibration
reference points passed to `ConvertAccelData` (when the format has an
accelerometer field), and the IR-camera and extension field bytes (when the
format has them). -/
inductive Report where
  | status
  | readReply
  | ack
  | data (mode : InputReportID) (accelCal : Option (Nat × Nat))
      (ir : Option (List Nat)) (ext : Option (List Nat))
  deriving DecidableEq, Repr

/-- Stages of one `Wiimote::Update` tick, used to record the execution order
contract of spec section 4.6 (stages 5-10). -/
inductive Stage where
  | extensionSwap
  | extensionUpdate
  | motionAdapterUpdate
  | edgeCheck
  | readService
  | dataReportStage
  deriving DecidableEq, Repr

/-- Result of one tick: the successor state, the reports emitted during the
tick, and the trace of stages that executed, in execution order. -/
structure TickResult where
  state : WiimoteState
  reports : List Report
  trace : List Stage
  deriving DecidableEq, Repr

/-- Accelerometer zero-G calibration reference, 8-bit.  Modelled from the
spec: the constant lives in `WiimoteEmu.h`, which is not under `src/`; the
spec calls it the 8-bit calibration reference (section 4.4). -/
def ACCEL_ZERO_G : Nat := 0x80

/-- Accelerometer one-G calibration reference, 8-bit.  Modelled from the
spec: the constant lives in `WiimoteEmu.h`, which is not under `src/`. -/
def ACCEL_ONE_G : Nat := 0x9A

/-- Reserved channel id signalling host-side disconnect.  Modelled from the
spec: `::Wiimote::DOLPHIN_DISCONNET_CONTROL_CHANNEL` is declared in
`Core/HW/Wiimote.h`, which is not under `src/`; the spec says a reserved
channel id signals host-side disconnect (section 6). The source's spelling
of the identifier is kept. -/
def DOLPHIN_DISCONNET_CONTROL_CHANNEL : Nat := 99

/-- HID frame type codes.  Modelled from the spec: declared in
`WiimoteCommon/WiimoteHid.h`, not under `src/`; the values are the standard
Bluetooth HID transaction types the source's switch statements name. -/
def HID_TYPE_HANDSHAKE : Nat := 0

/-- HID set-report transaction type.  Modelled from the spec (see
`HID_TYPE_HANDSHAKE`). -/
def HID_TYPE_SET_REPORT : Nat := 5

/-- HID data transaction type.  Modelled from the spec (see
`HID_TYPE_HANDSHAKE`). -/
def HID_TYPE_DATA : Nat := 10

/-- HID parameter code for input reports.  Modelled from the spec (see
`HID_TYPE_HANDSHAKE`). -/
def HID_PARAM_INPUT : Nat := 1

/-- HID parameter code for output reports.  Modelled from the spec (see
`HID_TYPE_HANDSHAKE`). -/
def HID_PARAM_OUTPUT : Nat := 2

/-- Camera sub-device slave address.  Modelled from the spec: declared in
`CameraLogic`, not under `src/`. Its concrete value is irrelevant to the
claims; only the bus function is ever applied to it. -/
def CameraLogic_I2C_ADDR : Nat := 0x58

/-- Offset of camera report data on the bus; the source comment at line 591
states the real device reads camera data starting at offset 0x37. -/
def CameraLogic_REPORT_DATA_OFFSET : Nat := 0x37

/-- Extension-port slave address for report reads.  Modelled from the spec:
declared in `ExtensionPort`, not under `src/`. -/
def ExtensionPort_REPORT_I2C_SLAVE : Nat := 0x52

/-- Extension-port register offset for report reads.  Modelled from the
spec: declared in `ExtensionPort`, not under `src/`. -/
def ExtensionPort_REPORT_I2C_ADDR : Nat := 0x00

/-- Modelled from the spec: which report formats carry an accelerometer
field (`DataReportBuilder::HasAccel`; `WiimoteCommon/DataReport.cpp` is not
under `src/`). Spec section 4.3 lists `CoreAccel`, the `CoreAccelIR`
variants and the interleaved half-reports as accelerometer-carrying. -/
def hasAccel : InputReportID → Bool
  | .reportCoreAccel => true
  | .reportCoreAccelIR12 => true
  | .reportCoreAccelExt16 => true
  | .reportCoreAccelIR10Ext6 => true
  | .reportInterleave1 => true
  | .reportInterleave2 => true
  | _ => false

/-- Modelled from the spec: which report formats carry an IR-camera field
(`DataReportBuilder::HasIR`, not under `src/`). -/
def hasIR : InputReportID → Bool
  | .reportCoreAccelIR12 => true
  | .reportCoreIR10Ext9 => true
  | .reportCoreAccelIR10Ext6 => true
  | .reportInterleave1 => true
  | .reportInterleave2 => true
  | _ => false

/-- Modelled from the spec: which report formats carry an extension field
(`DataReportBuilder::HasExt`, not under `src/`). -/
def hasExt : InputReportID → Bool
  | .reportCoreExt8 => true
  | .reportCoreExt19 => true
  | .reportCoreAccelExt16 => true
  | .reportCoreIR10Ext9 => true
  | .reportCoreAccelIR10Ext6 => true
  | .reportExt21 => true
  | _ => false

/-- Modelled from the spec: mode-dependent IR field size in bytes
(`DataReportBuilder::GetIRDataSize`, not under `src/`; sizes follow the
format names of spec section 4.3/4.4). -/
def irSize : InputReportID → Nat
  | .reportCoreAccelIR12 => 12
  | .reportCoreIR10Ext9 => 10
  | .reportCoreAccelIR10Ext6 => 10
  | .reportInterleave1 => 18
  | .reportInterleave2 => 18
  | _ => 0

/-- Modelled from the spec: mode-dependent extension field size in bytes
(`DataReportBuilder::GetExtDataSize`, not under `src/`). -/
def extSize : InputReportID → Nat
  | .reportCoreExt8 => 8
  | .reportCoreExt19 => 19
  | .reportCoreAccelExt16 => 16
  | .reportCoreIR10Ext9 => 9
  | .reportCoreAccelIR10Ext6 => 6
  | .reportExt21 => 21
  | _ => 0

/-- Modelled from the spec: mode-dependent offset of the IR field within the
camera report data (`DataReportBuilder::GetIRDataFormatOffset`, not under
`src/`; the second interleaved half-report reads the second half of the
camera data). -/
def irDataFormatOffset : InputReportID → Nat
  | .reportInterleave2 => 18
  | _ => 0

/-- Bytes the camera sub-device delivers for the IR field: the bus read of
`SendDataReport` at source lines 592-598, at the camera slave address, at
offset 0x37 plus the format offset, for `irSize` bytes. -/
def irBusBytes (bus : Bus) (mode : InputReportID) : List Nat :=
  bus CameraLogic_I2C_ADDR
    (CameraLogic_REPORT_DATA_OFFSET + irDataFormatOffset mode) (irSize mode)

/-- Bytes the extension port delivers for the extension field: the bus read
of `SendDataReport` at source lines 620-624. -/
def extBusBytes (bus : Bus) (mode : InputReportID) : List Nat :=
  bus ExtensionPort_REPORT_I2C_SLAVE ExtensionPort_REPORT_I2C_ADDR (extSize mode)

/-- IR-camera field bytes as assembled by `SendDataReport` (source lines
585-604): one bus read of `irSize` bytes at the camera slave; if the bus
delivers fewer bytes than requested, the whole field is filled with the
fail-safe byte 0xFF (`std::fill_n(ir_data, ir_size, u8(0xff))`). -/
def readIRField (bus : Bus) (mode : InputReportID) : List Nat :=
  let sz := irSize mode
  let got := (irBusBytes bus mode).take sz
  if got.length = sz then got else List.replicate sz 0xFF

/-- Extension field bytes as assembled by `SendDataReport` (source lines
606-629): one bus read of `extSize` bytes at the extension-port slave; on a
short read the whole field is filled with 0xFF. -/
def readExtField (bus : Bus) (mode : InputReportID) : List Nat :=
  let sz := extSize mode
  let got := (extBusBytes bus mode).take sz
  if got.length = sz then got else List.replicate sz 0xFF

/-- The data-report path, `Wiimote::SendDataReport` (source lines 536-653).
In `ReportDisabled` mode the function returns without emitting anything
(lines 540-545). Otherwise one data report is built: when the format has an
accelerometer field the conversion receives the 8-bit calibration references
shifted left by 2 (`ACCEL_ZERO_G << 2`, `ACCEL_ONE_G << 2`, lines 576-582);
IR and extension fields come from bus reads with 0xFF fill on shortfall; the
report is sent on the interrupt channel; finally the interleaved modes
toggle back and forth (lines 648-652). Movie/net-play overrides are external
collaborators outside the spec's scope and are elided. -/
def sendDataReport (bus : Bus) (s : WiimoteState) : WiimoteState × List Report :=
  if s.reporting_mode = InputReportID.reportDisabled then
    (s, [])
  else
    let accelCal :=
      if hasAccel s.reporting_mode then
        some (ACCEL_ZERO_G <<< 2, ACCEL_ONE_G <<< 2)
      else none
    let ir :=
      if hasIR s.reporting_mode then some (readIRField bus s.reporting_mode)
      else none
    let ext :=
      if hasExt s.reporting_mode then some (readExtField bus s.reporting_mode)
      else none
    let rpt := Report.data s.reporting_mode accelCal ir ext
    let nextMode :=
      if s.reporting_mode = InputReportID.reportInterleave1 then
        InputReportID.reportInterleave2
      else if s.reporting_mode = InputReportID.reportInterleave2 then
        InputReportID.reportInterleave1
      else s.reporting_mode
    ({ s with reporting_mode := nextMode }, [rpt])

/-- Modelled from the spec: `Wiimote::HandleRequestStatus` (its body is in a
repository file not under `src/`). Per spec sections 4.2/6 it refreshes the
status struct from the current extension-port connection state and emits one
status report. -/
def handleRequestStatus (s : WiimoteState) : WiimoteState × List Report :=
  ({ s with status_extension := s.port_connected }, [Report.status])

/-- Result of a fallible per-tick sub-step: the successor state, whether the
step fired (sent a report), and the reports it sent. -/
structure StepResult where
  st : WiimoteState
  fired : Bool
  sent : List Report
  deriving DecidableEq, Repr

/-- The extension connect/disconnect edge check,
`Wiimote::ProcessExtensionPortEvent` (source lines 453-469): if the port's
connection state equals the last-announced status nothing happens; otherwise
the reporting mode is forced to `ReportDisabled` and a status report is
emitted via `HandleRequestStatus`. -/
def processExtensionPortEvent (s : WiimoteState) : StepResult :=
  if s.port_connected = s.status_extension then
    ⟨s, false, []⟩
  else
    let s1 := { s with reporting_mode := InputReportID.reportDisabled }
    let r := handleRequestStatus s1
    ⟨r.1, true, r.2⟩

/-- Modelled from the spec: `Wiimote::ProcessReadDataRequest` (its body is in
a repository file not under `src/`). Per spec section 3 the pending read
request is serviced incrementally, one reply report per tick, until the
remaining byte count is exhausted; when no request is pending the step does
not fire. -/
def processReadDataRequest (s : WiimoteState) : StepResult :=
  if s.read_request_size = 0 then
    ⟨s, false, []⟩
  else
    ⟨{ s with read_request_size := s.read_request_size - min 16 s.read_request_size },
      true, [Report.readReply]⟩

/-- Modelled from the spec: `Wiimote::HandleExtensionSwap` (its body is in a
repository file not under `src/`). Per spec section 4.2, when the GUI-desired
attachment or MotionPlus setting disagrees with the active one the current
extension is detached, the desired one attached, and the port's connection
flag updated (the port is connected when the MotionPlus adapter or a
non-`none` extension is attached); otherwise it is a no-op. -/
def handleExtensionSwap (s : WiimoteState) : WiimoteState :=
  if s.attachment_setting ≠ s.active_extension ∨
      s.motion_plus_setting ≠ s.is_motion_plus_attached then
    { s with
      active_extension := s.attachment_setting,
      is_motion_plus_attached := s.motion_plus_setting,
      port_connected :=
        s.motion_plus_setting ||
          decide (s.attachment_setting ≠ ExtensionNumber.none) }
  else s

/-- Stages of a tick that always execute once the channel check passes:
extension swap, active-extension update, and — when the MotionPlus adapter
is attached — the motion-adapter update (source lines 503-516). -/
def stagePre (s : WiimoteState) : List Stage :=
  [Stage.extensionSwap, Stage.extensionUpdate] ++
    (if s.is_motion_plus_attached then [Stage.motionAdapterUpdate] else [])

/-- One tick, `Wiimote::Update` (source lines 481-534): no-op when no
channel is bound (line 484); otherwise extension swap, active-extension
update, MotionPlus update when attached, then the extension-port edge check
(return if it fired, lines 519-524), then the pending-read service (return
if it fired, lines 526-531), else the data report (line 533). The hotkey
snapshot, dynamics step, and button refresh that precede stage 5 touch no
state this model observes. -/
def update (bus : Bus) (s : WiimoteState) : TickResult :=
  if s.reporting_channel = 0 then
    ⟨s, [], []⟩
  else
    let s1 := handleExtensionSwap s
    let e := processExtensionPortEvent s1
    if e.fired then
      ⟨e.st, e.sent, stagePre s1 ++ [Stage.edgeCheck]⟩
    else
      let r := processReadDataRequest e.st
      if r.fired then
        ⟨r.st, r.sent, stagePre s1 ++ [Stage.edgeCheck, Stage.readService]⟩
      else
        let d := sendDataReport bus r.st
        ⟨d.1, d.2,
          stagePre s1 ++ [Stage.edgeCheck, Stage.readService, Stage.dataReportStage]⟩

/-- Full device reset, `Wiimote::Reset` (source lines 78-204): channel 0,
non-continuous `ReportCore` mode (lines 82-85), speaker unmuted, read
request cleared (line 171), extension connections reset to NONE (lines
178-182), then `HandleExtensionSwap` applies the desired MotionPlus status
and extension (line 186), then the status struct is cleared and its
extension flag set from the port's connection state (lines 192-195), which
suppresses a status report when an extension is already attached. EEPROM
file I/O and the calibration defaults (lines 89-169) touch no state this
model observes and are elided. -/
def reset (s : WiimoteState) : WiimoteState :=
  let s0 := { s with
    reporting_channel := 0,
    reporting_mode := InputReportID.reportCore,
    reporting_continuous := false,
    speaker_mute := false,
    read_request_size := 0,
    is_motion_plus_attached := false,
    active_extension := ExtensionNumber.none,
    port_connected := false }
  let s1 := handleExtensionSwap s0
  { s1 with status_extension := s1.port_connected }

/-- A HID frame as decoded by the transport entry points:
`HIDPacket{param:4, type:4}` header plus payload. -/
structure HidFrame where
  type : Nat
  param : Nat
  payload : List Nat
  deriving DecidableEq, Repr

/-- The control-channel transport entry point, `Wiimote::ControlChannel`
(source lines 655-710). The reserved disconnect channel triggers `Reset`
before anything else (lines 658-664), even for a zero-sized frame; a
zero-sized frame is otherwise ignored; a set-report frame with output
parameter dispatches to the output-report handler (a repository function not
under `src/`, passed here as `hidOut`) and echoes a handshake-success byte
on the interrupt path; handshake, data, input-parameter and unknown frames
only raise a diagnostic. -/
def controlChannel (hidOut : WiimoteState → List Nat → WiimoteState × List Report)
    (s : WiimoteState) (channel_id : Nat) (size : Nat) (frame : HidFrame) :
    WiimoteState × List Report :=
  if channel_id = DOLPHIN_DISCONNET_CONTROL_CHANNEL then
    (reset s, [])
  else if size = 0 then
    (s, [])
  else
    let s1 := { s with reporting_channel := channel_id }
    if frame.type = HID_TYPE_SET_REPORT then
      if frame.param = HID_PARAM_INPUT then
        (s1, [])
      else
        let r := hidOut s1 frame.payload
        (r.1, r.2 ++ [Report.ack])
    else
      (s1, [])

/-- The interrupt-channel transport entry point, `Wiimote::InterruptChannel`
(source lines 712-743). It performs no reserved-channel check: a zero-sized
frame is ignored, and otherwise the channel is recorded and a data frame
with output parameter dispatches to the output-report handler; every other
frame only raises a diagnostic. -/
def interruptChannel (hidOut : WiimoteState → List Nat → WiimoteState × List Report)
    (s : WiimoteState) (channel_id : Nat) (size : Nat) (frame : HidFrame) :
    WiimoteState × List Report :=
  if size = 0 then
    (s, [])
  else
    let s1 := { s with reporting_channel := channel_id }
    if frame.type = HID_TYPE_DATA then
      if frame.param = HID_PARAM_OUTPUT then
        hidOut s1 frame.payload
      else
        (s1, [])
    else
      (s1, [])

/-- Effective sideways flag, `Wiimote::IsSideways` (source lines 915-920):
the exclusive-or of the sideways configuration setting and the settings
modifiers at indices 0 (Sideways Toggle) and 2 (Sideways Hold). -/
def isSideways (s : WiimoteState) : Bool :=
  xor (xor s.sideways_setting s.mod_sideways_toggle) s.mod_sideways_hold

/-- Effective upright flag, `Wiimote::IsUpright` (source lines 922-927):
the exclusive-or of the upright configuration setting and the settings
modifiers at indices 1 (Upright Toggle) and 3 (Upright Hold). -/
def isUpright (s : WiimoteState) : Bool :=
  xor (xor s.upright_setting s.mod_upright_toggle) s.mod_upright_hold

/-- A 3x3 matrix with integer entries. The only angles `GetOrientation`
feeds to `Common::Matrix33::RotateZ` / `RotateX` are exact multiples of a
quarter turn, whose sines and cosines are integers, so the orientation
correction is represented exactly over the integers. -/
structure Matrix33 where
  xx : Int
  xy : Int
  xz : Int
  yx : Int
  yy : Int
  yz : Int
  zx : Int
  zy : Int
  zz : Int
  deriving DecidableEq, Repr

/-- Matrix product, row-by-column. -/
def Matrix33.mul (a b : Matrix33) : Matrix33 :=
  ⟨a.xx * b.xx + a.xy * b.yx + a.xz * b.zx,
   a.xx * b.xy + a.xy * b.yy + a.xz * b.zy,
   a.xx * b.xz + a.xy * b.yz + a.xz * b.zz,
   a.yx * b.xx + a.yy * b.yx + a.yz * b.zx,
   a.yx * b.xy + a.yy * b.yy + a.yz * b.zy,
   a.yx * b.xz + a.yy * b.yz + a.yz * b.zz,
   a.zx * b.xx + a.zy * b.yx + a.zz * b.zx,
   a.zx * b.xy + a.zy * b.yy + a.zz * b.zy,
   a.zx * b.xz + a.zy * b.yz + a.zz * b.zz⟩

/-- Matrix applied to a column vector. -/
def Matrix33.apply (a : Matrix33) (v : Int × Int × Int) : Int × Int × Int :=
  (a.xx * v.1 + a.xy * v.2.1 + a.xz * v.2.2,
   a.yx * v.1 + a.yy * v.2.1 + a.yz * v.2.2,
   a.zx * v.1 + a.zy * v.2.1 + a.zz * v.2.2)

/-- The identity matrix. -/
def identity33 : Matrix33 := ⟨1, 0, 0, 0, 1, 0, 0, 0, 1⟩

/-- Cosine of `q` quarter turns, exactly. -/
def qcos (q : Int) : Int :=
  if q % 4 = 0 then 1 else if q % 4 = 2 then -1 else 0

/-- Sine of `q` quarter turns, exactly. -/
def qsin (q : Int) : Int :=
  if q % 4 = 1 then 1 else if q % 4 = 3 then -1 else 0

/-- Rotation by `q` quarter turns about the Z (vertical) axis: the exact
integer counterpart of `Common::Matrix33::RotateZ` evaluated at the angle
`q * TAU/4`. -/
def rotateZ (q : Int) : Matrix33 :=
  ⟨qcos q, -qsin q, 0, qsin q, qcos q, 0, 0, 0, 1⟩

/-- Rotation by `q` quarter turns about the X (lateral) axis: the exact
integer counterpart of `Common::Matrix33::RotateX` evaluated at the angle
`q * TAU/4`. -/
def rotateX (q : Int) : Matrix33 :=
  ⟨1, 0, 0, 0, qcos q, -qsin q, 0, qsin q, qcos q⟩

/-- The device-orientation correction, `Wiimote::GetOrientation` (source
lines 975-979): `RotateZ(TAU / -4 * IsSideways()) * RotateX(TAU / 4 *
IsUpright())`, i.e. minus one quarter turn about Z when sideways and plus
one quarter turn about X when upright. -/
def getOrientation (sideways upright : Bool) : Matrix33 :=
  Matrix33.mul (rotateZ (if sideways then -1 else 0))
    (rotateX (if upright then 1 else 0))

/-- The orientation correction of a device state, combining `GetOrientation`
with `IsSideways` / `IsUpright` as the source does. -/
def orientationOf (s : WiimoteState) : Matrix33 :=
  getOrientation (isSideways s) (isUpright s)

/-- A sample device state used by the concrete witnesses. -/
def sampleState : WiimoteState :=
  { reporting_channel := 1,
    reporting_mode := InputReportID.reportCore,
    reporting_continuous := false,
    speaker_mute := false,
    status_extension := false,
    active_extension := ExtensionNumber.none,
    is_motion_plus_attached := false,
    attachment_setting := ExtensionNumber.none,
    motion_plus_setting := false,
    port_connected := false,
    read_request_size := 0,
    sideways_setting := true,
    upright_setting := false,
    mod_sideways_toggle := true,
    mod_upright_toggle := true,
    mod_sideways_hold := false,
    mod_upright_hold := false }

/-- A bus on which every read delivers zero bytes (every sub-device absent
or disabled). -/
def busEmpty : Bus := fun _ _ _ => []

/-- The device state produced by construction (source lines 206-347): the
settings are created at their defaults — attachment NONE, "Attach
MotionPlus" true (line 241), sideways/upright false (lines 271-276) — and
the constructor ends by calling `Reset` (line 346). The pre-reset field
values are irrelevant because `Reset` overwrites every protocol field. -/
def constructedWiimote : WiimoteState :=
  reset
    { reporting_channel := 0,
      reporting_mode := InputReportID.reportDisabled,
      reporting_continuous := false,
      speaker_mute := false,
      status_extension := false,
      active_extension := ExtensionNumber.none,
      is_motion_plus_attached := false,
      attachment_setting := ExtensionNumber.none,
      motion_plus_setting := true,
      port_connected := false,
      read_request_size := 0,
      sideways_setting := false,
      upright_setting := false,
      mod_sideways_toggle := false,
      mod_upright_toggle := false,
      mod_sideways_hold := false,
      mod_upright_hold := false }

/-- A sample state sitting in the first interleaved reporting mode. -/
def interleaveState : WiimoteState :=
  { sampleState with reporting_mode := InputReportID.reportInterleave1 }

/-- A sample state sitting in the Core+Accel reporting mode. -/
def accelState : WiimoteState :=
  { sampleState with reporting_mode := InputReportID.reportCoreAccel }

/-- A sample state sitting in a mode whose format carries both an IR-camera
field and an extension field. -/
def irExtState : WiimoteState :=
  { sampleState with reporting_mode := InputReportID.reportCoreAccelIR10Ext6 }

/-- A sample state on which the extension-port connection state disagrees
with the last-announced status while a channel is bound and no extension
swap is pending. -/
def edgeState : WiimoteState :=
  { sampleState with port_connected := true, status_extension := false }

/-- A sample state with the same connection-status disagreement as
`edgeState` but with no channel bound (`reporting_channel = 0`). -/
def unboundEdgeState : WiimoteState :=
  { sampleState with
    reporting_channel := 0, port_connected := true, status_extension := false }

/-- A sample state whose GUI attachment selection is a Nunchuk, so that a
reset re-attaches an extension while reinitializing the device. -/
def resetSampleState : WiimoteState :=
  { sampleState with attachment_setting := ExtensionNumber.nunchuk }

/-- A sample state ready for clean interleaved data-report ticks: first
interleaved mode, bound channel, no pending swap, no pending read, and
port state in agreement with the announced status. -/
def interleaveTickState : WiimoteState :=
  { sampleState with reporting_mode := InputReportID.reportInterleave1 }

/-- A sample state with a pending 32-byte read request. -/
def readPendingState : WiimoteState :=
  { sampleState with read_request_size := 32 }

/-- Helper: the extension swap never changes the reporting mode. -/
theorem handleExtensionSwap_mode (s : WiimoteState) :
    (handleExtensionSwap s).reporting_mode = s.reporting_mode := by
  unfold handleExtensionSwap
  split <;> rfl

/-- Helper: after the extension swap the GUI-desired attachment and
MotionPlus setting agree with the active ones. -/
theorem handleExtensionSwap_sync (s : WiimoteState) :
    (handleExtensionSwap s).attachment_setting =
        (handleExtensionSwap s).active_extension ∧
    (handleExtensionSwap s).motion_plus_setting =
        (handleExtensionSwap s).is_motion_plus_attached := by
  unfold handleExtensionSwap
  split
  · exact ⟨rfl, rfl⟩
  · rename_i h
    push_neg at h
    exact h

/-- Helper: when the desired attachment and MotionPlus setting already agree
with the active ones, the extension swap is a no-op. -/
theorem handleExtensionSwap_fixed (s : WiimoteState)
    (h1 : s.attachment_setting = s.active_extension)
    (h2 : s.motion_plus_setting = s.is_motion_plus_attached) :
    handleExtensionSwap s = s := by
  unfold handleExtensionSwap
  rw [if_neg]
  push_neg
  exact ⟨h1, h2⟩

/-- Helper: the shape of a tick whose extension-port edge check fires. -/
theorem update_edge_eq (bus : Bus) (s : WiimoteState)
    (h0 : ¬s.reporting_channel = 0)
    (h1 : ¬(handleExtensionSwap s).port_connected =
        (handleExtensionSwap s).status_extension) :
    update bus s =
      ⟨{ handleExtensionSwap s with
          reporting_mode := InputReportID.reportDisabled,
          status_extension := (handleExtensionSwap s).port_connected },
        [Report.status], stagePre (handleExtensionSwap s) ++ [Stage.edgeCheck]⟩ := by
  simp [update, h0, processExtensionPortEvent, h1, handleRequestStatus]

/-- Helper: the shape of a tick that services one step of a pending read. -/
theorem update_read_eq (bus : Bus) (s : WiimoteState)
    (h0 : ¬s.reporting_channel = 0)
    (h1 : (handleExtensionSwap s).port_connected =
        (handleExtensionSwap s).status_extension)
    (h2 : ¬(handleExtensionSwap s).read_request_size = 0) :
    update bus s =
      ⟨{ handleExtensionSwap s with
          read_request_size := (handleExtensionSwap s).read_request_size -
            min 16 (handleExtensionSwap s).read_request_size },
        [Report.readReply],
        stagePre (handleExtensionSwap s) ++ [Stage.edgeCheck, Stage.readService]⟩ := by
  simp [update, h0, processExtensionPortEvent, h1, processReadDataRequest, h2]

/-- Helper: the shape of a tick that reaches the data-report stage. -/
theorem update_data_eq (bus : Bus) (s : WiimoteState)
    (h0 : ¬s.reporting_channel = 0)
    (h1 : (handleExtensionSwap s).port_connected =
        (handleExtensionSwap s).status_extension)
    (h2 : (handleExtensionSwap s).read_request_size = 0) :
    update bus s =
      ⟨(sendDataReport bus (handleExtensionSwap s)).1,
        (sendDataReport bus (handleExtensionSwap s)).2,
        stagePre (handleExtensionSwap s) ++
          [Stage.edgeCheck, Stage.readService, Stage.dataReportStage]⟩ := by
  simp [update, h0, processExtensionPortEvent, h1, processReadDataRequest, h2]

/-- Helper: `SendDataReport` in disabled mode does nothing. -/
theorem sendDataReport_disabled (bus : Bus) (s : WiimoteState)
    (h : s.reporting_mode = InputReportID.reportDisabled) :
    sendDataReport bus s = (s, []) := by
  simp [sendDataReport, h]

/-- Helper: `SendDataReport` in any enabled mode emits exactly one data
report and applies the interleave alternation to the mode. -/
theorem sendDataReport_enabled (bus : Bus) (s : WiimoteState)
    (h : ¬s.reporting_mode = InputReportID.reportDisabled) :
    sendDataReport bus s =
      ({ s with reporting_mode :=
          if s.reporting_mode = InputReportID.reportInterleave1 then
            InputReportID.reportInterleave2
          else if s.reporting_mode = InputReportID.reportInterleave2 then
            InputReportID.reportInterleave1
          else s.reporting_mode },
        [Report.data s.reporting_mode
          (if hasAccel s.reporting_mode then
            some (ACCEL_ZERO_G <<< 2, ACCEL_ONE_G <<< 2) else none)
          (if hasIR s.reporting_mode then
            some (readIRField bus s.reporting_mode) else none)
          (if hasExt s.reporting_mode then
            some (readExtField bus s.reporting_mode) else none)]) := by
  simp [sendDataReport, h]

/-- Helper: synchronization facts established by `Reset`: desired and active
attachment agree, desired and attached MotionPlus agree, the announced
extension status equals the port's connection state, the pending read is
cleared, and the mode is `ReportCore`. -/
theorem reset_sync (s : WiimoteState) :
    (reset s).attachment_setting = (reset s).active_extension ∧
    (reset s).motion_plus_setting = (reset s).is_motion_plus_attached ∧
    (reset s).status_extension = (reset s).port_connected ∧
    (reset s).read_request_size = 0 ∧
    (reset s).reporting_mode = InputReportID.reportCore := by
  simp only [reset, handleExtensionSwap]
  split
  · simp
  · rename_i h
    push_neg at h
    simp_all

/-- Helper: on a clean tick (bound channel, no pending swap, port state in
agreement with the announced status, no pending read) in an enabled mode,
the successor state differs from the initial one only by the interleave
alternation of the reporting mode. -/
theorem update_clean_state (bus : Bus) (u : WiimoteState)
    (h0 : u.reporting_channel ≠ 0)
    (ha : u.attachment_setting = u.active_extension)
    (hb : u.motion_plus_setting = u.is_motion_plus_attached)
    (hp : u.port_connected = u.status_extension)
    (hr : u.read_request_size = 0)
    (hne : u.reporting_mode ≠ InputReportID.reportDisabled) :
    (update bus u).state = { u with reporting_mode :=
      if u.reporting_mode = InputReportID.reportInterleave1 then
        InputReportID.reportInterleave2
      else if u.reporting_mode = InputReportID.reportInterleave2 then
        InputReportID.reportInterleave1
      else u.reporting_mode } := by
  have hswap := handleExtensionSwap_fixed u ha hb
  have hd := update_data_eq bus u h0 (by rw [hswap]; exact hp)
    (by rw [hswap]; exact hr)
  rw [hd, hswap, sendDataReport_enabled bus u hne]

/-- Helper: a clean tick in ReportCore mode emits no status report, runs
through to the data-report stage, and keeps the mode at ReportCore. -/
theorem update_clean_tick (bus : Bus) (u : WiimoteState)
    (h0 : u.reporting_channel ≠ 0)
    (ha : u.attachment_setting = u.active_extension)
    (hb : u.motion_plus_setting = u.is_motion_plus_attached)
    (hp : u.port_connected = u.status_extension)
    (hr : u.read_request_size = 0)
    (hm : u.reporting_mode = InputReportID.reportCore) :
    Report.status ∉ (update bus u).reports ∧
    (update bus u).trace = stagePre u ++
      [Stage.edgeCheck, Stage.readService, Stage.dataReportStage] ∧
    (update bus u).state.reporting_mode = InputReportID.reportCore := by
  have hswap := handleExtensionSwap_fixed u ha hb
  have hd := update_data_eq bus u h0 (by rw [hswap]; exact hp)
    (by rw [hswap]; exact hr)
  have hne : ¬u.reporting_mode = InputReportID.reportDisabled := by
    rw [hm]; decide
  rw [hd, hswap, sendDataReport_enabled bus u hne]
  refine ⟨by simp, rfl, by simp [hm]⟩

/-- C6: the orientation correction is the identity when sideways and upright
are both false; with exactly one flag it is exactly one quarter turn about
that flag's axis (the vertical Z axis for sideways, fixing the vertical
basis vector; the lateral X axis for upright, fixing the lateral basis
vector); with both flags it is the composition of the two rotations with
the sideways rotation applied after the upright rotation. -/
theorem getOrientation_composition :
    getOrientation false false = identity33 ∧
    getOrientation true false = rotateZ (-1) ∧
    getOrientation false true = rotateX 1 ∧
    Matrix33.apply (rotateZ (-1)) (0, 0, 1) = (0, 0, 1) ∧
    Matrix33.apply (rotateX 1) (1, 0, 0) = (1, 0, 0) ∧
    getOrientation true false ≠ identity33 ∧
    getOrientation false true ≠ identity33 ∧
    getOrientation true true =
      Matrix33.mul (getOrientation true false) (getOrientation false true) := by
  decide

/-- C10: the effective sideways flag is active iff an odd number of its
three sources (configuration setting, toggle modifier, hold modifier) is
active, the effective upright flag is computed identically from its own
three sources, and each flag depends only on its own three sources: two
states agreeing on them yield equal flags. -/
theorem isSideways_isUpright_parity (s t : WiimoteState)
    (h1 : s.sideways_setting = t.sideways_setting)
    (h2 : s.mod_sideways_toggle = t.mod_sideways_toggle)
    (h3 : s.mod_sideways_hold = t.mod_sideways_hold)
    (h4 : s.upright_setting = t.upright_setting)
    (h5 : s.mod_upright_toggle = t.mod_upright_toggle)
    (h6 : s.mod_upright_hold = t.mod_upright_hold) :
    (isSideways s = true ↔
      ((cond s.sideways_setting 1 0 : Nat) + cond s.mod_sideways_toggle 1 0 +
        cond s.mod_sideways_hold 1 0) % 2 = 1) ∧
    (isUpright s = true ↔
      ((cond s.upright_setting 1 0 : Nat) + cond s.mod_upright_toggle 1 0 +
        cond s.mod_upright_hold 1 0) % 2 = 1) ∧
    isSideways s = isSideways t ∧
    isUpright s = isUpright t := by
  have key : ∀ a b c : Bool,
      (xor (xor a b) c = true ↔
        ((cond a 1 0 : Nat) + cond b 1 0 + cond c 1 0) % 2 = 1) := by decide
  refine ⟨key _ _ _, key _ _ _, ?_, ?_⟩
  · simp [isSideways, h1, h2, h3]
  · simp [isUpright, h4, h5, h6]

/-- C10 witness: the parity characterization evaluated at the sample state
(sideways setting and toggle both active: even count, flag off; upright
toggle alone active: odd count, flag on). -/
theorem isSideways_isUpright_parity_witness :
    (isSideways sampleState = true ↔ ((1 : Nat) + 1 + 0) % 2 = 1) ∧
    (isUpright sampleState = true ↔ ((0 : Nat) + 1 + 0) % 2 = 1) ∧
    isSideways sampleState = isSideways sampleState ∧
    isUpright sampleState = isUpright sampleState :=
  isSideways_isUpright_parity sampleState sampleState rfl rfl rfl rfl rfl rfl

/-- C2 counterexample: immediately after a reset the reporting mode is
`ReportCore` (the source comment at line 82 reads "Wiimote starts in
non-continuous CORE mode"), not `ReportDisabled` as the claim states. -/
theorem reset_mode_core_counterexample :
    (reset sampleState).reporting_mode = InputReportID.reportCore ∧
    (reset sampleState).reporting_mode ≠ InputReportID.reportDisabled := by
  decide

/-- C2 (amended): after every reset — and at construction, which performs a
reset — the reporting state machine holds the non-continuous `Core`
reporting mode and logical channel 0 (no host bound). -/
theorem reset_initial_state (s : WiimoteState) :
    (reset s).reporting_mode = InputReportID.reportCore ∧
    (reset s).reporting_channel = 0 ∧
    (reset s).reporting_continuous = false ∧
    constructedWiimote.reporting_mode = InputReportID.reportCore ∧
    constructedWiimote.reporting_channel = 0 ∧
    constructedWiimote.reporting_continuous = false := by
  refine ⟨?_, ?_, ?_, by decide, by decide, by decide⟩ <;>
    · simp only [reset, handleExtensionSwap]
      split <;> simp

/-- C7 counterexample: delivering a nonzero-sized frame to InterruptChannel
on the reserved disconnect channel does not reset the device — the
reporting mode stays `ReportInterleave1`, whereas a reset would set
`ReportCore`; InterruptChannel has no reserved-channel check. -/
theorem interruptChannel_disconnect_counterexample :
    (interruptChannel (fun t _ => (t, []))
        interleaveState DOLPHIN_DISCONNET_CONTROL_CHANNEL 1
        ⟨0, 0, []⟩).1.reporting_mode = InputReportID.reportInterleave1 ∧
    (reset interleaveState).reporting_mode = InputReportID.reportCore ∧
    (interruptChannel (fun t _ => (t, []))
        interleaveState DOLPHIN_DISCONNET_CONTROL_CHANNEL 1
        ⟨0, 0, []⟩).1 ≠ reset interleaveState := by
  decide

/-- C7 (amended): invoking the ControlChannel transport entry point with the
reserved host-side-disconnect channel id triggers a full device reset,
regardless of the frame contents (the InterruptChannel entry point performs
no such check). -/
theorem controlChannel_disconnect_resets
    (hidOut : WiimoteState → List Nat → WiimoteState × List Report)
    (s : WiimoteState) (size : Nat) (frame : HidFrame) :
    controlChannel hidOut s DOLPHIN_DISCONNET_CONTROL_CHANNEL size frame =
      (reset s, []) := by
  simp [controlChannel]

/-- C8: whenever a data report's format includes the accelerometer field,
the emitted report's acceleration conversion receives the 8-bit calibration
references scaled to 10-bit precision, i.e. `ACCEL_ZERO_G * 4` and
`ACCEL_ONE_G * 4` (the source shifts left by exactly 2 bits). -/
theorem sendDataReport_accel_calibration (bus : Bus) (s : WiimoteState)
    (h : hasAccel s.reporting_mode = true) :
    (sendDataReport bus s).2 =
      [Report.data s.reporting_mode
        (some (ACCEL_ZERO_G * 4, ACCEL_ONE_G * 4))
        (if hasIR s.reporting_mode then some (readIRField bus s.reporting_mode)
          else none)
        (if hasExt s.reporting_mode then some (readExtField bus s.reporting_mode)
          else none)] := by
  have hmode : s.reporting_mode ≠ InputReportID.reportDisabled := by
    intro hx
    rw [hx] at h
    simp [hasAccel] at h
  simp only [sendDataReport, if_neg hmode, if_pos h]
  norm_num [ACCEL_ZERO_G, ACCEL_ONE_G, Nat.shiftLeft_eq]

/-- C5: for every data report whose format includes an IR-camera or
extension field, if the bus read for that field delivers N bytes with N
strictly less than the requested field size, then the trailing
(requested - N) bytes of that field all equal 0xFF (indeed the whole field
is filled with 0xFF), the shortfall is not propagated as an error, and the
report is still emitted with that field. -/
theorem sendDataReport_shortfall_fill (bus : Bus) (s : WiimoteState)
    (hmode : s.reporting_mode ≠ InputReportID.reportDisabled) :
    (sendDataReport bus s).2.length = 1 ∧
    (hasIR s.reporting_mode = true →
      (irBusBytes bus s.reporting_mode).length < irSize s.reporting_mode →
      (readIRField bus s.reporting_mode).drop
          (irBusBytes bus s.reporting_mode).length =
        List.replicate
          (irSize s.reporting_mode - (irBusBytes bus s.reporting_mode).length)
          0xFF ∧
      ∃ cal ext, (sendDataReport bus s).2 =
        [Report.data s.reporting_mode cal
          (some (readIRField bus s.reporting_mode)) ext]) ∧
    (hasExt s.reporting_mode = true →
      (extBusBytes bus s.reporting_mode).length < extSize s.reporting_mode →
      (readExtField bus s.reporting_mode).drop
          (extBusBytes bus s.reporting_mode).length =
        List.replicate
          (extSize s.reporting_mode - (extBusBytes bus s.reporting_mode).length)
          0xFF ∧
      ∃ cal ir, (sendDataReport bus s).2 =
        [Report.data s.reporting_mode cal ir
          (some (readExtField bus s.reporting_mode))]) := by
  refine ⟨?_, ?_, ?_⟩
  · rw [sendDataReport_enabled bus s hmode]
    rfl
  · intro hIR hN
    have hfill : readIRField bus s.reporting_mode =
        List.replicate (irSize s.reporting_mode) 0xFF := by
      unfold readIRField
      rw [if_neg]
      rw [List.length_take]
      omega
    constructor
    · rw [hfill, List.drop_replicate]
    · rw [sendDataReport_enabled bus s hmode]
      exact ⟨(if hasAccel s.reporting_mode then
          some (ACCEL_ZERO_G <<< 2, ACCEL_ONE_G <<< 2) else none),
        (if hasExt s.reporting_mode then
          some (readExtField bus s.reporting_mode) else none),
        by rw [if_pos hIR]⟩
  · intro hExt hN
    have hfill : readExtField bus s.reporting_mode =
        List.replicate (extSize s.reporting_mode) 0xFF := by
      unfold readExtField
      rw [if_neg]
      rw [List.length_take]
      omega
    constructor
    · rw [hfill, List.drop_replicate]
    · rw [sendDataReport_enabled bus s hmode]
      exact ⟨(if hasAccel s.reporting_mode then
          some (ACCEL_ZERO_G <<< 2, ACCEL_ONE_G <<< 2) else none),
        (if hasIR s.reporting_mode then
          some (readIRField bus s.reporting_mode) else none),
        by rw [if_pos hExt]⟩

/-- C5 witness: on a bus whose sub-devices deliver zero bytes, a report in
the Core+Accel+IR10+Ext6 mode is still emitted and both its 10-byte IR
field and 6-byte extension field are entirely 0xFF. -/
theorem sendDataReport_shortfall_fill_witness :
    (sendDataReport busEmpty irExtState).2.length = 1 ∧
    ((readIRField busEmpty irExtState.reporting_mode).drop 0 =
        List.replicate 10 0xFF ∧
      ∃ cal ext, (sendDataReport busEmpty irExtState).2 =
        [Report.data irExtState.reporting_mode cal
          (some (readIRField busEmpty irExtState.reporting_mode)) ext]) ∧
    ((readExtField busEmpty irExtState.reporting_mode).drop 0 =
        List.replicate 6 0xFF ∧
      ∃ cal ir, (sendDataReport busEmpty irExtState).2 =
        [Report.data irExtState.reporting_mode cal ir
          (some (readExtField busEmpty irExtState.reporting_mode))]) := by
  have h := sendDataReport_shortfall_fill busEmpty irExtState (by decide)
  exact ⟨h.1, h.2.1 (by decide) (by decide), h.2.2 (by decide) (by decide)⟩

/-- C1 counterexample: a state in which the port's connection state differs
from the last-announced status but no channel is bound
(`reporting_channel = 0`): the next Update tick does nothing — no status
report is emitted and the reporting mode is not set to Disabled — because
`Update` returns immediately when no channel is bound (source line 484). -/
theorem update_edge_unbound_counterexample :
    unboundEdgeState.port_connected ≠ unboundEdgeState.status_extension ∧
    update busEmpty unboundEdgeState = ⟨unboundEdgeState, [], []⟩ ∧
    (update busEmpty unboundEdgeState).state.reporting_mode ≠
      InputReportID.reportDisabled ∧
    (update busEmpty unboundEdgeState).reports = [] := by
  decide

/-- C1 (amended): for every device state with a nonzero reporting channel
in which, after the tick's extension-swap stage, the extension port's
connection state differs from the last-announced extension status, the very
next Update tick sets the reporting mode to Disabled, emits exactly one
status report and zero data reports, and returns before the read-request
service and data-report stages. -/
theorem update_extension_edge (bus : Bus) (s : WiimoteState)
    (h0 : s.reporting_channel ≠ 0)
    (h1 : (handleExtensionSwap s).port_connected ≠
        (handleExtensionSwap s).status_extension) :
    (update bus s).state.reporting_mode = InputReportID.reportDisabled ∧
    (update bus s).reports = [Report.status] ∧
    (update bus s).trace = stagePre (handleExtensionSwap s) ++ [Stage.edgeCheck] ∧
    Stage.readService ∉ (update bus s).trace ∧
    Stage.dataReportStage ∉ (update bus s).trace ∧
    ∀ m cal ir ext, Report.data m cal ir ext ∉ (update bus s).reports := by
  rw [update_edge_eq bus s h0 h1]
  refine ⟨rfl, rfl, rfl, ?_, ?_, ?_⟩
  · by_cases hmp : (handleExtensionSwap s).is_motion_plus_attached <;>
      simp [stagePre, hmp]
  · by_cases hmp : (handleExtensionSwap s).is_motion_plus_attached <;>
      simp [stagePre, hmp]
  · intro m cal ir ext
    simp

/-- C1 witness: the edge fires on the sample mismatch state with channel 1:
mode becomes Disabled, exactly one status report, no data report, and the
tick ends at the edge-check stage. -/
theorem update_extension_edge_witness :
    edgeState.reporting_channel ≠ 0 ∧
    (handleExtensionSwap edgeState).port_connected ≠
      (handleExtensionSwap edgeState).status_extension ∧
    ((update busEmpty edgeState).state.reporting_mode =
        InputReportID.reportDisabled ∧
      (update busEmpty edgeState).reports = [Report.status] ∧
      (update busEmpty edgeState).trace =
        stagePre (handleExtensionSwap edgeState) ++ [Stage.edgeCheck] ∧
      Stage.readService ∉ (update busEmpty edgeState).trace ∧
      Stage.dataReportStage ∉ (update busEmpty edgeState).trace ∧
      ∀ m cal ir ext,
        Report.data m cal ir ext ∉ (update busEmpty edgeState).reports) :=
  ⟨by decide, by decide, update_extension_edge busEmpty edgeState (by decide) (by decide)⟩

/-- C3: within every tick the stages execute in the fixed order
extension-swap, active-extension update, motion-adapter update, edge-check,
read-service, data-report (the trace is always a sublist of that order); at
most one report is emitted per tick; a tick with no bound channel does
nothing; and the tick short-circuits after the first of the edge-check or
the read-service fires, so a status report wins over a read-service report,
which wins over a data report. -/
theorem update_stage_order (bus : Bus) (s : WiimoteState) :
    List.Sublist (update bus s).trace
      [Stage.extensionSwap, Stage.extensionUpdate, Stage.motionAdapterUpdate,
        Stage.edgeCheck, Stage.readService, Stage.dataReportStage] ∧
    (update bus s).reports.length ≤ 1 ∧
    (s.reporting_channel = 0 → update bus s = ⟨s, [], []⟩) ∧
    (s.reporting_channel ≠ 0 →
      ((handleExtensionSwap s).port_connected ≠
          (handleExtensionSwap s).status_extension →
        (update bus s).reports = [Report.status] ∧
        (update bus s).trace =
          stagePre (handleExtensionSwap s) ++ [Stage.edgeCheck]) ∧
      ((handleExtensionSwap s).port_connected =
          (handleExtensionSwap s).status_extension →
        (handleExtensionSwap s).read_request_size ≠ 0 →
        (update bus s).reports = [Report.readReply] ∧
        (update bus s).trace = stagePre (handleExtensionSwap s) ++
          [Stage.edgeCheck, Stage.readService]) ∧
      ((handleExtensionSwap s).port_connected =
          (handleExtensionSwap s).status_extension →
        (handleExtensionSwap s).read_request_size = 0 →
        (update bus s).trace = stagePre (handleExtensionSwap s) ++
          [Stage.edgeCheck, Stage.readService, Stage.dataReportStage] ∧
        ((update bus s).reports = [] ∨
          ∃ cal ir ext, (update bus s).reports =
            [Report.data s.reporting_mode cal ir ext]))) := by
  by_cases h0 : s.reporting_channel = 0
  · have he : update bus s = ⟨s, [], []⟩ := by simp [update, h0]
    rw [he]
    exact ⟨List.nil_sublist _, by simp, fun _ => rfl, fun hc => absurd h0 hc⟩
  · by_cases h1 : (handleExtensionSwap s).port_connected =
        (handleExtensionSwap s).status_extension
    · by_cases h2 : (handleExtensionSwap s).read_request_size = 0
      · rw [update_data_eq bus s h0 h1 h2]
        refine ⟨?_, ?_, fun hc => absurd hc h0,
          fun _ => ⟨fun hne => absurd h1 hne, fun _ hne => absurd h2 hne,
            fun _ _ => ⟨rfl, ?_⟩⟩⟩
        · by_cases hmp : (handleExtensionSwap s).is_motion_plus_attached <;>
            simp [stagePre, hmp]
        · by_cases hd : (handleExtensionSwap s).reporting_mode =
              InputReportID.reportDisabled
          · rw [sendDataReport_disabled bus _ hd]
            simp
          · rw [sendDataReport_enabled bus _ hd]
            simp
        · by_cases hd : (handleExtensionSwap s).reporting_mode =
              InputReportID.reportDisabled
          · rw [sendDataReport_disabled bus _ hd]
            exact Or.inl rfl
          · rw [sendDataReport_enabled bus _ hd]
            exact Or.inr ⟨_, _, _, by rw [handleExtensionSwap_mode]⟩
      · rw [update_read_eq bus s h0 h1 h2]
        refine ⟨?_, by simp, fun hc => absurd hc h0,
          fun _ => ⟨fun hne => absurd h1 hne, fun _ _ => ⟨rfl, rfl⟩,
            fun _ hz => absurd hz h2⟩⟩
        by_cases hmp : (handleExtensionSwap s).is_motion_plus_attached <;>
          simp [stagePre, hmp]
    · rw [update_edge_eq bus s h0 h1]
      refine ⟨?_, by simp, fun hc => absurd hc h0,
        fun _ => ⟨fun _ => ⟨rfl, rfl⟩, fun he => absurd he h1,
          fun he => absurd he h1⟩⟩
      by_cases hmp : (handleExtensionSwap s).is_motion_plus_attached <;>
        simp [stagePre, hmp]

/-- C3 witness: a tick of the sample state with a pending 32-byte read
request services the read, emits exactly the read-reply report, and stops
at the read-service stage. -/
theorem update_stage_order_witness :
    (update busEmpty readPendingState).reports = [Report.readReply] ∧
    (update busEmpty readPendingState).trace =
      stagePre (handleExtensionSwap readPendingState) ++
        [Stage.edgeCheck, Stage.readService] := by
  have h := update_stage_order busEmpty readPendingState
  exact (h.2.2.2 (by decide)).2.1 (by decide) (by decide)

/-- C4: while the mode is one of the two interleaved modes, every emitted
data report flips it to the other interleaved mode (never repeating or
skipping); in disabled mode nothing is emitted and the mode is unchanged; a
read-service tick emits no data report and leaves the mode unchanged; an
edge-check tick emits no data report and sets the mode to Disabled rather
than flipping it; and over two consecutive clean data-report ticks starting
in InterleavedA the mode alternates strictly A, B, A. -/
theorem interleave_alternation (bus : Bus) (s : WiimoteState) :
    (s.reporting_mode = InputReportID.reportInterleave1 →
      (sendDataReport bus s).1.reporting_mode = InputReportID.reportInterleave2 ∧
      ∃ cal ir ext, (sendDataReport bus s).2 =
        [Report.data s.reporting_mode cal ir ext]) ∧
    (s.reporting_mode = InputReportID.reportInterleave2 →
      (sendDataReport bus s).1.reporting_mode = InputReportID.reportInterleave1 ∧
      ∃ cal ir ext, (sendDataReport bus s).2 =
        [Report.data s.reporting_mode cal ir ext]) ∧
    (s.reporting_mode = InputReportID.reportDisabled →
      sendDataReport bus s = (s, [])) ∧
    (s.reporting_channel ≠ 0 →
      (handleExtensionSwap s).port_connected =
        (handleExtensionSwap s).status_extension →
      (handleExtensionSwap s).read_request_size ≠ 0 →
      (update bus s).state.reporting_mode = s.reporting_mode ∧
      ∀ m cal ir ext, Report.data m cal ir ext ∉ (update bus s).reports) ∧
    (s.reporting_channel ≠ 0 →
      (handleExtensionSwap s).port_connected ≠
        (handleExtensionSwap s).status_extension →
      (update bus s).state.reporting_mode = InputReportID.reportDisabled ∧
      ∀ m cal ir ext, Report.data m cal ir ext ∉ (update bus s).reports) ∧
    (s.reporting_channel ≠ 0 →
      s.attachment_setting = s.active_extension →
      s.motion_plus_setting = s.is_motion_plus_attached →
      s.port_connected = s.status_extension →
      s.read_request_size = 0 →
      s.reporting_mode = InputReportID.reportInterleave1 →
      (update bus s).state.reporting_mode = InputReportID.reportInterleave2 ∧
      (update bus (update bus s).state).state.reporting_mode =
        InputReportID.reportInterleave1) := by
  refine ⟨?_, ?_, ?_, ?_, ?_, ?_⟩
  · intro h
    have hne : ¬s.reporting_mode = InputReportID.reportDisabled := by
      rw [h]; decide
    rw [sendDataReport_enabled bus s hne]
    exact ⟨by simp [h], ⟨_, _, _, rfl⟩⟩
  · intro h
    have hne : ¬s.reporting_mode = InputReportID.reportDisabled := by
      rw [h]; decide
    rw [sendDataReport_enabled bus s hne]
    refine ⟨by simp [h], ⟨_, _, _, rfl⟩⟩
  · intro h
    exact sendDataReport_disabled bus s h
  · intro h0 h1 h2
    rw [update_read_eq bus s h0 h1 h2]
    refine ⟨by simp [handleExtensionSwap_mode], ?_⟩
    intro m cal ir ext
    simp
  · intro h0 h1
    rw [update_edge_eq bus s h0 h1]
    refine ⟨rfl, ?_⟩
    intro m cal ir ext
    simp
  · intro h0 h1 h2 h3 h4 h5
    have hne1 : s.reporting_mode ≠ InputReportID.reportDisabled := by
      rw [h5]; decide
    have e1 := update_clean_state bus s h0 h1 h2 h3 h4 hne1
    have ht : (update bus s).state =
        { s with reporting_mode := InputReportID.reportInterleave2 } := by
      rw [e1]
      simp [h5]
    refine ⟨by rw [ht], ?_⟩
    have e2 := update_clean_state bus
      { s with reporting_mode := InputReportID.reportInterleave2 }
      h0 h1 h2 h3 h4 (by simp)
    rw [ht, e2]
    simp

/-- C4 witness: two consecutive clean ticks from the sample state in the
first interleaved mode alternate the mode InterleavedA, InterleavedB,
InterleavedA. -/
theorem interleave_alternation_witness :
    (update busEmpty interleaveTickState).state.reporting_mode =
      InputReportID.reportInterleave2 ∧
    (update busEmpty
        (update busEmpty interleaveTickState).state).state.reporting_mode =
      InputReportID.reportInterleave1 := by
  have h := interleave_alternation busEmpty interleaveTickState
  exact h.2.2.2.2.2 (by decide) (by decide) (by decide) (by decide)
    (by decide) (by decide)

/-- C9: immediately after Reset the announced extension-status flag equals
the extension port's actual connection state, and — once a host binds a
nonzero channel — the first Update tick after the reset does not take the
connect/disconnect-edge branch: it runs through to the data-report stage,
emits no status report, and leaves the mode at ReportCore, even when an
extension was attached and re-attached during the reset. -/
theorem reset_first_update_no_status (bus : Bus) (s : WiimoteState) (ch : Nat)
    (hch : ch ≠ 0) :
    (reset s).status_extension = (reset s).port_connected ∧
    Report.status ∉ (update bus { reset s with reporting_channel := ch }).reports ∧
    (update bus { reset s with reporting_channel := ch }).trace =
      stagePre (reset s) ++
        [Stage.edgeCheck, Stage.readService, Stage.dataReportStage] ∧
    (update bus { reset s with reporting_channel := ch }).state.reporting_mode =
      InputReportID.reportCore := by
  obtain ⟨h1, h2, h3, h4, h5⟩ := reset_sync s
  have hc := update_clean_tick bus { reset s with reporting_channel := ch }
    hch h1 h2 h3.symm h4 h5
  exact ⟨h3, hc.1, hc.2.1, hc.2.2⟩

/-- C9 witness: resetting a device whose GUI selection is a Nunchuk (so the
reset re-attaches an extension), then binding channel 1: the announced
status matches the port, and the first tick emits a data report rather than
a status report. -/
theorem reset_first_update_no_status_witness :
    (reset resetSampleState).status_extension =
      (reset resetSampleState).port_connected ∧
    Report.status ∉
      (update busEmpty
        { reset resetSampleState with reporting_channel := 1 }).reports ∧
    (update busEmpty
        { reset resetSampleState with reporting_channel := 1 }).trace =
      stagePre (reset resetSampleState) ++
        [Stage.edgeCheck, Stage.readService, Stage.dataReportStage] ∧
    (update busEmpty
        { reset resetSampleState with
          reporting_channel := 1 }).state.reporting_mode =
      InputReportID.reportCore :=
  reset_first_update_no_status busEmpty resetSampleState 1 (by decide)

/-- C8 witness: the Core+Accel sample state on the empty bus emits one data
report carrying the 10-bit-scaled calibration references. -/
theorem sendDataReport_accel_calibration_witness :
    hasAccel accelState.reporting_mode = true ∧
    (sendDataReport busEmpty accelState).2 =
      [Report.data accelState.reporting_mode
        (some (ACCEL_ZERO_G * 4, ACCEL_ONE_G * 4))
        (if hasIR accelState.reporting_mode then
          some (readIRField busEmpty accelState.reporting_mode) else none)
        (if hasExt accelState.reporting_mode then
          some (readExtField busEmpty accelState.reporting_mode) else none)] :=
  ⟨by decide, sendDataReport_accel_calibration busEmpty accelState (by decide)⟩

end WiimoteEmu
